import Mathlib

/-!
Verification development for the STM32Audio repository.

The definitions below are a shallow embedding of the C sources:
- `audio_recorder.c` / `audio_recorder.h` (capture pipeline), and
- `Core/RTOS/ThreadPool/core_thread.h` (thread pool, header and implementation).

Machine integers are modelled as `Nat`/`Int`; the arithmetic right shift `>> 8`
on a signed 32-bit value is floor division by 256 (`Int.fdiv`).  CMSIS message
queues are modelled as bounded lists; a put with message priority inserts in
priority order (higher priority retrieved first, FIFO within one priority), as
the CMSIS-RTOS2 interface specifies.
-/

namespace STM32Audio

/-! ## Capture pipeline data model (audio_recorder.h) -/

/-- `AUDIO_BUFFER_SIZE` from audio_recorder.h: samples per channel. -/
def AUDIO_BUFFER_SIZE : Nat := 2048

/-- Capacity of the event message queue created in `audio_recorder_init`
(`osMessageQueueNew(10, ...)`). -/
def AUDIO_QUEUE_CAPACITY : Nat := 10

/-- The `audio_buffer_state_t` enum from audio_recorder.h. -/
inductive audio_buffer_state_t where
  | AUDIO_BUFFER_EMPTY
  | AUDIO_BUFFER_HALF_FULL
  | AUDIO_BUFFER_FULL
deriving DecidableEq, Repr

/-- The `audio_data_t` structure.  The fixed-length C arrays are modelled as
total functions from indices; only indices below the buffer sizes matter. -/
structure audio_data_t where
  left_buffer : Nat → Int
  right_buffer : Nat → Int
  playback_buffer : Nat → Int
  buffer_state : audio_buffer_state_t
  buffer_index : Nat

/-- The `audio_recorder_t` handle: audio data, the bounded event queue
(`audio_queue`), and the recording flag.  The counting semaphore is not needed
for the properties verified here. -/
structure audio_recorder_t where
  audio_data : audio_data_t
  audio_queue : List audio_buffer_state_t
  is_recording : Bool

/-- Non-blocking `osMessageQueuePut(queue, &state, 0, 0)` as used by the DMA
callbacks: appends when there is capacity, silently drops otherwise. -/
def osMessageQueuePut_nonblocking (q : List audio_buffer_state_t) (cap : Nat)
    (msg : audio_buffer_state_t) : List audio_buffer_state_t :=
  if q.length < cap then q ++ [msg] else q

/-- `audio_recorder_half_complete_callback`: sets `buffer_state` to
`AUDIO_BUFFER_HALF_FULL`, then performs one non-blocking enqueue of that event. -/
def audio_recorder_half_complete_callback (r : audio_recorder_t) : audio_recorder_t :=
  { r with
      audio_data := { r.audio_data with buffer_state := .AUDIO_BUFFER_HALF_FULL },
      audio_queue := osMessageQueuePut_nonblocking r.audio_queue AUDIO_QUEUE_CAPACITY
        .AUDIO_BUFFER_HALF_FULL }

/-- `audio_recorder_full_complete_callback`: sets `buffer_state` to
`AUDIO_BUFFER_FULL`, then performs one non-blocking enqueue of that event. -/
def audio_recorder_full_complete_callback (r : audio_recorder_t) : audio_recorder_t :=
  { r with
      audio_data := { r.audio_data with buffer_state := .AUDIO_BUFFER_FULL },
      audio_queue := osMessageQueuePut_nonblocking r.audio_queue AUDIO_QUEUE_CAPACITY
        .AUDIO_BUFFER_FULL }

/-- The 32-to-16-bit conversion in `audio_processor_task`: arithmetic right
shift by 8 (floor division by 256) followed by the two saturation branches. -/
def convert_sample (v : Int) : Int :=
  if Int.fdiv v 256 > 32767 then 32767
  else if Int.fdiv v 256 < -32768 then -32768
  else Int.fdiv v 256

/-- The clamp function as the specification phrases it:
`clamp(v, -32768, 32767)`. -/
def clamp16 (v : Int) : Int := max (-32768) (min 32767 v)

/-- The conversion/interleaving `for` loop body of `audio_processor_task`
(lines 186-201): processes `n` sample indices starting at `i`, writing the
converted left sample at `2*i` and right sample at `2*i+1` of the playback
buffer. -/
def interleave_loop (left right : Nat → Int) : (Nat → Int) → Nat → Nat → (Nat → Int)
  | pb, _, 0 => pb
  | pb, i, n+1 =>
      interleave_loop left right
        (fun j =>
          if j = 2*i then convert_sample (left i)
          else if j = 2*i+1 then convert_sample (right i)
          else pb j)
        (i+1) n

/-- The half-buffer index range selected by `audio_processor_task` from the
current `buffer_state`: second half when `AUDIO_BUFFER_FULL`, first half
otherwise. -/
def processor_range (st : audio_buffer_state_t) : Nat × Nat :=
  if st = .AUDIO_BUFFER_FULL then (AUDIO_BUFFER_SIZE / 2, AUDIO_BUFFER_SIZE)
  else (0, AUDIO_BUFFER_SIZE / 2)

/-- One iteration of `audio_processor_task` after a successful semaphore
acquire: if not recording the unit is discarded, otherwise the selected
half-buffer range is converted and interleaved into the playback buffer. -/
def audio_processor_iteration (r : audio_recorder_t) : audio_recorder_t :=
  if r.is_recording = false then r
  else
    { r with audio_data := { r.audio_data with playback_buffer :=
        (interleave_loop r.audio_data.left_buffer r.audio_data.right_buffer
          r.audio_data.playback_buffer
          (processor_range r.audio_data.buffer_state).1
          ((processor_range r.audio_data.buffer_state).2 -
            (processor_range r.audio_data.buffer_state).1)) } }

/-- Concrete recorder used to witness claim C1: recording, half-buffer state,
left channel all `0x7FFFFFFF`, right channel all `-0x80000000`. -/
def recC1 : audio_recorder_t :=
  { audio_data :=
      { left_buffer := fun _ => 2147483647
        right_buffer := fun _ => -2147483648
        playback_buffer := fun _ => 0
        buffer_state := .AUDIO_BUFFER_HALF_FULL
        buffer_index := 0 }
    audio_queue := []
    is_recording := true }

/-! ## Hardware interaction model for start/stop (audio_recorder.c) -/

/-- The HAL calls `audio_recorder_start` / `audio_recorder_stop` can issue.
Filter 0 is the left channel (`hdfsdm1_filter0`), filter 1 the right
(`hdfsdm1_filter1`). -/
inductive HalCall where
  | configRegChannel (filter : Nat)
  | startDMA (filter : Nat)
  | stopDMA (filter : Nat)
deriving DecidableEq, Repr

/-- Logger levels used by the recorder (LOGD/LOGI/LOGW/LOGE). -/
inductive LogLevel where
  | lDebug
  | lInfo
  | lWarn
  | lError
deriving DecidableEq, Repr

/-- Outcome oracle for the four HAL calls in `audio_recorder_start`, in the
order the code issues them: configure left, configure right, start right DMA,
start left DMA. -/
structure HalOracle where
  config_left_ok : Bool
  config_right_ok : Bool
  start_right_ok : Bool
  start_left_ok : Bool
deriving DecidableEq, Repr

/-- Result of running `audio_recorder_start`/`audio_recorder_stop`: the new
recorder state, the HAL calls issued (in order), and the log messages
emitted (levels, in order). -/
structure RecorderTrace where
  recorder : audio_recorder_t
  calls : List HalCall
  logs : List LogLevel

/-- `audio_recorder_start` (audio_recorder.c lines 51-87): no-op with a
warning if already recording; otherwise configure left, configure right,
start right DMA, start left DMA, aborting with an error log at the first
failure without undoing any earlier call; only on full success is
`is_recording` set. -/
def audio_recorder_start (r : audio_recorder_t) (hw : HalOracle) : RecorderTrace :=
  if r.is_recording then
    { recorder := r, calls := [], logs := [.lWarn] }
  else if hw.config_left_ok = false then
    { recorder := r, calls := [.configRegChannel 0], logs := [.lInfo, .lError] }
  else if hw.config_right_ok = false then
    { recorder := r, calls := [.configRegChannel 0, .configRegChannel 1],
      logs := [.lInfo, .lError] }
  else if hw.start_right_ok = false then
    { recorder := r, calls := [.configRegChannel 0, .configRegChannel 1, .startDMA 1],
      logs := [.lInfo, .lError] }
  else if hw.start_left_ok = false then
    { recorder := r,
      calls := [.configRegChannel 0, .configRegChannel 1, .startDMA 1, .startDMA 0],
      logs := [.lInfo, .lError] }
  else
    { recorder := { r with is_recording := true },
      calls := [.configRegChannel 0, .configRegChannel 1, .startDMA 1, .startDMA 0],
      logs := [.lInfo, .lInfo] }

/-- `audio_recorder_stop` (audio_recorder.c lines 92-106): no-op with a
warning when not recording; otherwise stops both DMA channels and clears
`is_recording`. -/
def audio_recorder_stop (r : audio_recorder_t) : RecorderTrace :=
  if r.is_recording = false then
    { recorder := r, calls := [], logs := [.lWarn] }
  else
    { recorder := { r with is_recording := false },
      calls := [.stopDMA 0, .stopDMA 1], logs := [.lInfo, .lInfo] }

/-- An idle (not recording) recorder with empty buffers. -/
def recIdle : audio_recorder_t :=
  { audio_data :=
      { left_buffer := fun _ => 0
        right_buffer := fun _ => 0
        playback_buffer := fun _ => 0
        buffer_state := .AUDIO_BUFFER_EMPTY
        buffer_index := 0 }
    audio_queue := []
    is_recording := false }

/-- Oracle where configuration and the right channel start succeed but the
left channel DMA start fails. -/
def hwLeftStartFails : HalOracle :=
  { config_left_ok := true, config_right_ok := true,
    start_right_ok := true, start_left_ok := false }

/-! ## ThreadPool data model (core_thread.h) -/

/-- `ThreadPoolPriority` enum. -/
inductive ThreadPoolPriority where
  | LOW
  | NORMAL
  | HIGH
  | CRITICAL
deriving DecidableEq, Repr

/-- `ThreadPoolError` enum. -/
inductive ThreadPoolError where
  | SUCCESS
  | ERROR_INVALID_ARG
  | ERROR_ALLOC
  | ERROR_QUEUE_CREATE
  | ERROR_THREAD_CREATE
  | ERROR_QUEUE_FULL
  | ERROR_SHUTDOWN
  | ERROR_NOT_INITIALIZED
deriving DecidableEq, Repr

/-- `ThreadPoolState` enum. -/
inductive ThreadPoolState where
  | RUNNING
  | SHUTTING_DOWN
  | STOPPED
deriving DecidableEq, Repr

/-- `ThreadPoolConfig` structure; `default_thread_priority` (an `osPriority_t`)
is modelled as a number. -/
structure ThreadPoolConfig where
  thread_count : Nat
  queue_size : Nat
  default_timeout : Nat
  stack_size : Nat
  low_power_mode : Bool
  default_thread_priority : Nat
deriving DecidableEq, Repr

/-- The internal `Task` descriptor.  The function pointer and argument are
modelled as optional identifiers (`none` = `NULL`). -/
structure Task where
  function : Option Nat
  arg : Option Nat
  is_shutdown_signal : Bool
  priority : ThreadPoolPriority
  execution_priority : Nat
deriving DecidableEq, Repr

/-- `ThreadPoolInternal`: the queue is a list of (task, message priority)
pairs kept in dequeue order; mutex handles are modelled by whether they were
created; worker thread handles are optional identifiers. -/
structure ThreadPoolInternal where
  task_queue : List (Task × Nat)
  queue_capacity : Nat
  worker_threads : List (Option Nat)
  thread_count : Nat
  state : ThreadPoolState
  state_mutex : Bool
  active_tasks : Nat
  active_tasks_mutex : Bool
  main_thread : Option Nat
  low_power_mode : Bool
deriving DecidableEq, Repr

/-- CMSIS message-queue insertion with message priority: higher priority is
retrieved first, FIFO within one priority (a new message goes after existing
messages of greater or equal priority). -/
def mqInsert (q : List (Task × Nat)) (t : Task) (p : Nat) : List (Task × Nat) :=
  match q with
  | [] => [(t, p)]
  | e :: rest => if e.2 < p then (t, p) :: e :: rest else e :: mqInsert rest t p

/-- `osMessageQueuePut` on the task queue as observed when no queue capacity
becomes available during the wait: it succeeds exactly when there is free
capacity at the call, and otherwise times out (second component `false`). -/
def osMessageQueuePut_try (q : List (Task × Nat)) (cap : Nat) (t : Task) (p : Nat) :
    List (Task × Nat) × Bool :=
  if q.length < cap then (mqInsert q t p, true) else (q, false)

/-- `convert_priority`: maps the pool queue priority to the CMSIS message
priority. -/
def convert_priority : ThreadPoolPriority → Nat
  | .LOW => 0
  | .NORMAL => 1
  | .HIGH => 2
  | .CRITICAL => 3

/-- `core_thread_add_task` (core_thread.h lines 535-575).  `g` is the global
`g_threadpool` (`none` = `NULL`).  Returns the error code and the updated
global.  The blocking wait on a full queue is modelled by
`osMessageQueuePut_try`: the put succeeds exactly when capacity is available
(the case where no capacity appears within `timeout_ms`). -/
def core_thread_add_task (g : Option ThreadPoolInternal) (function : Option Nat)
    (arg : Option Nat) (queue_priority : ThreadPoolPriority)
    (execution_priority : Nat) (_timeout_ms : Nat) :
    ThreadPoolError × Option ThreadPoolInternal :=
  match g with
  | none => (.ERROR_NOT_INITIALIZED, none)
  | some pool =>
    if function = none then (.ERROR_INVALID_ARG, some pool)
    else if pool.state ≠ .RUNNING then (.ERROR_SHUTDOWN, some pool)
    else
      let task : Task :=
        { function := function, arg := arg, is_shutdown_signal := false,
          priority := queue_priority, execution_priority := execution_priority }
      let res := osMessageQueuePut_try pool.task_queue pool.queue_capacity task
        (convert_priority queue_priority)
      if res.2 then (.SUCCESS, some { pool with task_queue := res.1 })
      else (.ERROR_QUEUE_FULL, some pool)

/-- A pool as in the C2 scenario: `thread_count = 2`, `queue_size = 1`, both
workers occupied by long-running tasks (2 active tasks, nothing dequeued),
empty queue, running. -/
def poolC2 : ThreadPoolInternal :=
  { task_queue := [], queue_capacity := 1, worker_threads := [some 0, some 1],
    thread_count := 2, state := .RUNNING, state_mutex := true,
    active_tasks := 2, active_tasks_mutex := true,
    main_thread := none, low_power_mode := false }

/-- `poolC2` after shutdown was requested. -/
def poolStopped : ThreadPoolInternal := { poolC2 with state := .STOPPED }

/-- First submission of the C2 scenario (LOW priority, timeout 0). -/
def c2r1 : ThreadPoolError × Option ThreadPoolInternal :=
  core_thread_add_task (some poolC2) (some 1) none .LOW 0 0

/-- Second submission of the C2 scenario. -/
def c2r2 : ThreadPoolError × Option ThreadPoolInternal :=
  core_thread_add_task c2r1.2 (some 2) none .LOW 0 0

/-- Third submission of the C2 scenario. -/
def c2r3 : ThreadPoolError × Option ThreadPoolInternal :=
  core_thread_add_task c2r2.2 (some 3) none .LOW 0 0

/-! ## ThreadPool queries on the global instance (C10) -/

/-- `core_thread_get_active_tasks_count` (lines 577-588): 0 when the global
pool or its counter mutex is absent. -/
def core_thread_get_active_tasks_count (g : Option ThreadPoolInternal) : Nat :=
  match g with
  | none => 0
  | some pool => if pool.active_tasks_mutex = false then 0 else pool.active_tasks

/-- `core_thread_get_active_tasks_count_wo_mutex` (lines 590-602): lock-free
snapshot, 0 when the global pool is absent. -/
def core_thread_get_active_tasks_count_wo_mutex (g : Option ThreadPoolInternal) : Nat :=
  match g with
  | none => 0
  | some pool => pool.active_tasks

/-- `core_thread_is_idle` (lines 604-607). -/
def core_thread_is_idle (g : Option ThreadPoolInternal) : Bool :=
  core_thread_get_active_tasks_count g == 0

/-- `core_thread_get_state` (lines 626-637): `STOPPED` when the global pool or
its state mutex is absent. -/
def core_thread_get_state (g : Option ThreadPoolInternal) : ThreadPoolState :=
  match g with
  | none => .STOPPED
  | some pool => if pool.state_mutex = false then .STOPPED else pool.state

/-- `core_thread_wait_and_suspend` at the global level (lines 609-624),
returning whether `osThreadSuspend` was invoked: never when the global pool is
absent or low-power mode is off; otherwise exactly when there are active
tasks and a main thread is recorded. -/
def core_thread_wait_and_suspend_performed (g : Option ThreadPoolInternal) : Bool :=
  match g with
  | none => false
  | some pool =>
      if pool.low_power_mode = false then false
      else decide (0 < pool.active_tasks) && pool.main_thread.isSome

/-! ## ThreadPool construction (C4) -/

/-- The OS/allocator handles created during `create_threadpool_internal`. -/
inductive Handle where
  | poolStruct
  | stateMutex
  | activeTasksMutex
  | taskQueue
  | workerArray
  | workerThread (i : Nat)
deriving DecidableEq, Repr

/-- Whether a handle is a worker thread handle. -/
def Handle.isWorkerThread : Handle → Bool
  | .workerThread _ => true
  | _ => false

/-- Success/failure oracle for the allocations and OS-object creations
performed by `create_threadpool_internal`, in program order. -/
structure AllocOracle where
  pool_alloc_ok : Bool
  state_mutex_ok : Bool
  active_tasks_mutex_ok : Bool
  queue_ok : Bool
  worker_array_ok : Bool
  thread_ok : Nat → Bool

/-- Result of `create_threadpool_internal`: the pool on success, plus the
handles created and the handles released during the run. -/
structure CreateResult where
  pool : Option ThreadPoolInternal
  created : List Handle
  released : List Handle

/-- The `error:` label of `create_threadpool_internal` (lines 404-412): frees
the task queue, the two mutexes and the worker thread array when they exist,
then the pool structure.  Already-created worker threads are not touched. -/
def error_cleanup (hasQueue hasStateMutex hasActiveMutex hasArray : Bool) : List Handle :=
  (if hasQueue then [Handle.taskQueue] else []) ++
  (if hasStateMutex then [Handle.stateMutex] else []) ++
  (if hasActiveMutex then [Handle.activeTasksMutex] else []) ++
  (if hasArray then [Handle.workerArray] else []) ++
  [Handle.poolStruct]

/-- The worker creation loop (lines 388-398): creates threads `i, i+1, ...`
until `n` are made or one fails; returns the handles created and whether the
loop completed. -/
def create_worker_threads (o : AllocOracle) : Nat → Nat → (List Handle × Bool)
  | _, 0 => ([], true)
  | i, n+1 =>
      if o.thread_ok i then
        ((Handle.workerThread i) :: (create_worker_threads o (i+1) n).1,
          (create_worker_threads o (i+1) n).2)
      else ([], false)

/-- `create_threadpool_internal` (lines 334-413): config validation, pool
allocation, mutex creation, queue creation, worker array allocation, worker
thread creation; any failure jumps to `error_cleanup`. -/
def create_threadpool_internal (config : ThreadPoolConfig) (o : AllocOracle) : CreateResult :=
  if config.thread_count = 0 ∨ config.queue_size = 0 ∨ config.stack_size = 0 then
    { pool := none, created := [], released := [] }
  else if o.pool_alloc_ok = false then
    { pool := none, created := [], released := [] }
  else if o.state_mutex_ok = false ∨ o.active_tasks_mutex_ok = false then
    { pool := none,
      created := Handle.poolStruct ::
        ((if o.state_mutex_ok then [Handle.stateMutex] else []) ++
         (if o.active_tasks_mutex_ok then [Handle.activeTasksMutex] else [])),
      released := error_cleanup false o.state_mutex_ok o.active_tasks_mutex_ok false }
  else if o.queue_ok = false then
    { pool := none,
      created := [Handle.poolStruct, Handle.stateMutex, Handle.activeTasksMutex],
      released := error_cleanup false true true false }
  else if o.worker_array_ok = false then
    { pool := none,
      created := [Handle.poolStruct, Handle.stateMutex, Handle.activeTasksMutex,
        Handle.taskQueue],
      released := error_cleanup true true true false }
  else if (create_worker_threads o 0 config.thread_count).2 = false then
    { pool := none,
      created := [Handle.poolStruct, Handle.stateMutex, Handle.activeTasksMutex,
        Handle.taskQueue, Handle.workerArray] ++
        (create_worker_threads o 0 config.thread_count).1,
      released := error_cleanup true true true true }
  else
    { pool := some
        { task_queue := [], queue_capacity := config.queue_size,
          worker_threads := (List.range config.thread_count).map some,
          thread_count := config.thread_count, state := .RUNNING, state_mutex := true,
          active_tasks := 0, active_tasks_mutex := true,
          main_thread := if config.low_power_mode then some 0 else none,
          low_power_mode := config.low_power_mode },
      created := [Handle.poolStruct, Handle.stateMutex, Handle.activeTasksMutex,
        Handle.taskQueue, Handle.workerArray] ++
        (create_worker_threads o 0 config.thread_count).1,
      released := [] }

/-- Concrete configuration for the C4 counterexample. -/
def cfgC4 : ThreadPoolConfig :=
  { thread_count := 2, queue_size := 1, default_timeout := 0, stack_size := 1,
    low_power_mode := false, default_thread_priority := 0 }

/-- Oracle for the C4 counterexample: everything succeeds except creation of
the second worker thread. -/
def oracleC4 : AllocOracle :=
  { pool_alloc_ok := true, state_mutex_ok := true, active_tasks_mutex_ok := true,
    queue_ok := true, worker_array_ok := true, thread_ok := fun i => i == 0 }

/-! ## ThreadPool teardown and worker loop (C5) -/

/-- The zero-initialized shutdown task of `destroy_threadpool_internal`
(line 445-446): only `is_shutdown_signal` is set. -/
def shutdown_task : Task :=
  { function := none, arg := none, is_shutdown_signal := true,
    priority := .LOW, execution_priority := 0 }

/-- `destroy_threadpool_internal` (lines 418-466), abstracted to what C5 is
about: one shutdown-tagged put at message priority 255 is issued per non-null
worker handle, and the pool state is finally set to `STOPPED`.  Returns the
final pool record and the list of puts issued. -/
def destroy_threadpool_internal (pool : ThreadPoolInternal) (_wait_for_tasks : Bool) :
    ThreadPoolInternal × List (Task × Nat) :=
  ({ pool with state := .STOPPED },
    pool.worker_threads.filterMap
      (fun h => if h.isSome then some (shutdown_task, 255) else none))

/-- The worker loop (lines 260-314) viewed as draining a queue snapshot: the
worker executes ordinary tasks in dequeue order and exits at the first
shutdown-tagged task.  Returns the tasks executed before exiting and, if the
loop exited, the queue contents left behind (`none` = worker still blocked). -/
def worker_drain : List (Task × Nat) → (List Task × Option (List (Task × Nat)))
  | [] => ([], none)
  | e :: rest =>
      if e.1.is_shutdown_signal then ([], some rest)
      else ((e.1 :: (worker_drain rest).1), (worker_drain rest).2)

/-- A concrete ordinary (non-shutdown) task, queued at LOW priority. -/
def realTaskC5 : Task :=
  { function := some 1, arg := none, is_shutdown_signal := false,
    priority := .LOW, execution_priority := 0 }

/-! ## Worker interleaving model (C3, C8)

`worker_thread_function` (core_thread.h lines 250-315) increments
`active_tasks` immediately before running a task body and decrements it
immediately after; both updates, and the low-power resume check, happen under
`active_tasks_mutex`, so each counter update together with its condition check
is one atomic step of the interleaving. -/

/-- Pool state as seen by the workers: which workers are currently executing
a task body, the shared counter, the pool lifecycle state and the low-power
fields. -/
structure PoolSim where
  workers : List Bool
  active_tasks : Nat
  state : ThreadPoolState
  low_power_mode : Bool
  main_thread : Option Nat
  main_suspended : Bool
deriving DecidableEq, Repr

/-- The pool right after construction: `thread_count` idle workers, counter
zero, RUNNING; in low-power mode the constructing (main) thread is recorded. -/
def poolSimInit (n : Nat) (lp : Bool) : PoolSim :=
  { workers := List.replicate n false, active_tasks := 0, state := .RUNNING,
    low_power_mode := lp, main_thread := if lp then some 0 else none,
    main_suspended := false }

/-- Number of workers currently executing a task body. -/
def countRunning : List Bool → Nat
  | [] => 0
  | b :: t => (if b then 1 else 0) + countRunning t

/-- Worker `w` dequeues an ordinary task and increments `active_tasks`
(lines 270-273): enabled only for an idle worker. -/
def worker_begin_task (s : PoolSim) (w : Nat) : Option PoolSim :=
  if s.workers.getD w true = false then
    some { s with
        workers := s.workers.set w true
        active_tasks := s.active_tasks + 1 }
  else none

/-- Worker `w` finishes its task body and decrements `active_tasks`
(lines 296-306); under `low_power_mode`, if the counter just reached zero
while the state is RUNNING and a main thread is recorded, the main thread is
resumed.  Returns the new state and whether `osThreadResume` was invoked. -/
def worker_finish_task (s : PoolSim) (w : Nat) : Option (PoolSim × Bool) :=
  if s.workers.getD w false = true then
    some
      ({ s with
          workers := s.workers.set w false
          active_tasks := s.active_tasks - 1
          main_suspended :=
            (if s.low_power_mode = true ∧ s.active_tasks - 1 = 0 ∧
                s.state = .RUNNING ∧ s.main_thread.isSome = true then false
            else s.main_suspended) },
        decide (s.low_power_mode = true ∧ s.active_tasks - 1 = 0 ∧
          s.state = .RUNNING ∧ s.main_thread.isSome = true))
  else none

/-- `core_thread_wait_and_suspend` on a live pool (lines 609-624): reads the
counter under the mutex and suspends the main thread when there are active
tasks. -/
def core_thread_wait_and_suspend_sim (s : PoolSim) : PoolSim :=
  if s.low_power_mode = false then s
  else if 0 < s.active_tasks ∧ s.main_thread.isSome = true then
    { s with main_suspended := true }
  else s

/-- One atomic step of the interleaving: a worker starting or finishing a
task body, the idle hook calling `wait_and_suspend`, or teardown requesting
shutdown. -/
inductive PoolStep : PoolSim → PoolSim → Prop where
  | start_task (s : PoolSim) (w : Nat) (t : PoolSim) :
      worker_begin_task s w = some t → PoolStep s t
  | finish_task (s : PoolSim) (w : Nat) (t : PoolSim) (resumed : Bool) :
      worker_finish_task s w = some (t, resumed) → PoolStep s t
  | idle_hook (s : PoolSim) : PoolStep s (core_thread_wait_and_suspend_sim s)
  | request_shutdown (s : PoolSim) :
      PoolStep s { s with state := .SHUTTING_DOWN }

/-- States reachable from a freshly initialized pool with `n` workers. -/
inductive poolReachable (n : Nat) (lp : Bool) : PoolSim → Prop where
  | init : poolReachable n lp (poolSimInit n lp)
  | step (s t : PoolSim) : poolReachable n lp s → PoolStep s t →
      poolReachable n lp t

/-- Concrete one-worker low-power pool state with its single worker running:
reached from `poolSimInit 1 true` by one `worker_begin_task` step. -/
def simActive1 : PoolSim :=
  { workers := [true], active_tasks := 1, state := .RUNNING,
    low_power_mode := true, main_thread := some 0, main_suspended := false }

/-- `simActive1` after its worker finishes: idle, counter zero. -/
def simDone1 : PoolSim :=
  { workers := [false], active_tasks := 0, state := .RUNNING,
    low_power_mode := true, main_thread := some 0, main_suspended := false }

/-! ## Theorems about the conversion/interleaving loop -/

theorem interleave_loop_low (left right : Nat → Int) :
    ∀ (n : Nat) (pb : Nat → Int) (i j : Nat), j < 2*i →
      interleave_loop left right pb i n j = pb j := by
  intro n
  induction n with
  | zero => intro pb i j hj; rfl
  | succ n ih =>
      intro pb i j hj
      simp only [interleave_loop]
      rw [ih _ (i+1) j (by omega)]
      have h1 : ¬ (j = 2*i) := by omega
      have h2 : ¬ (j = 2*i+1) := by omega
      simp [h1, h2]

theorem interleave_loop_at (left right : Nat → Int) :
    ∀ (n : Nat) (pb : Nat → Int) (i0 k : Nat), i0 ≤ k → k < i0 + n →
      interleave_loop left right pb i0 n (2*k) = convert_sample (left k) ∧
      interleave_loop left right pb i0 n (2*k+1) = convert_sample (right k) := by
  intro n
  induction n with
  | zero => intro pb i0 k h1 h2; omega
  | succ n ih =>
      intro pb i0 k h1 h2
      simp only [interleave_loop]
      by_cases hk : k = i0
      · subst hk
        constructor
        · rw [interleave_loop_low left right n _ (k+1) (2*k) (by omega)]
          simp
        · rw [interleave_loop_low left right n _ (k+1) (2*k+1) (by omega)]
          have hne : ¬ (2*k+1 = 2*k) := by omega
          simp [hne]
      · exact ih _ (i0+1) k (by omega) (by omega)

theorem convert_sample_eq_clamp16 (v : Int) : convert_sample v = clamp16 (Int.fdiv v 256) := by
  simp only [convert_sample, clamp16, max_def, min_def]
  split_ifs <;> omega

theorem processor_range_sum (st : audio_buffer_state_t) :
    (processor_range st).1 + ((processor_range st).2 - (processor_range st).1)
      = (processor_range st).2 := by
  unfold processor_range
  split <;> decide

/-- Claim C1: for every run of the processor task over the selected
half-buffer index range, and for every index `i` in that range, the
interleaved output satisfies `output[2*i] = clamp(left[i] >> 8, -32768, 32767)`
and `output[2*i+1] = clamp(right[i] >> 8, -32768, 32767)`, for all raw signed
sample values (`>> 8` being the arithmetic shift, i.e. floor division
by 256). -/
theorem audio_processor_interleave_correct (r : audio_recorder_t)
    (hrec : r.is_recording = true) (i : Nat)
    (h1 : (processor_range r.audio_data.buffer_state).1 ≤ i)
    (h2 : i < (processor_range r.audio_data.buffer_state).2) :
    (audio_processor_iteration r).audio_data.playback_buffer (2*i)
        = clamp16 (Int.fdiv (r.audio_data.left_buffer i) 256) ∧
    (audio_processor_iteration r).audio_data.playback_buffer (2*i+1)
        = clamp16 (Int.fdiv (r.audio_data.right_buffer i) 256) := by
  have hb : i < (processor_range r.audio_data.buffer_state).1 +
      ((processor_range r.audio_data.buffer_state).2 -
        (processor_range r.audio_data.buffer_state).1) := by
    rw [processor_range_sum]; exact h2
  obtain ⟨hL, hR⟩ := interleave_loop_at r.audio_data.left_buffer r.audio_data.right_buffer
    ((processor_range r.audio_data.buffer_state).2 -
      (processor_range r.audio_data.buffer_state).1)
    r.audio_data.playback_buffer (processor_range r.audio_data.buffer_state).1 i h1 hb
  simp only [audio_processor_iteration, hrec]
  rw [← convert_sample_eq_clamp16, ← convert_sample_eq_clamp16]
  simp only [Bool.true_eq_false, if_false]
  exact ⟨hL, hR⟩

/-- Witness for C1 at a concrete input: raw left sample `0x7FFFFFFF` and raw
right sample `0x80000000` produce the converted output pair `(32767, -32768)`. -/
theorem audio_processor_interleave_correct_witness :
    (audio_processor_iteration recC1).audio_data.playback_buffer 0 = 32767 ∧
    (audio_processor_iteration recC1).audio_data.playback_buffer 1 = -32768 := by
  obtain ⟨hL, hR⟩ := audio_processor_interleave_correct recC1 rfl 0 (by decide) (by decide)
  have h0 : (2:Nat)*0 = 0 := rfl
  have h1 : (2:Nat)*0+1 = 1 := rfl
  rw [h0] at hL
  rw [h1] at hR
  rw [hL, hR]
  constructor <;> decide

/-- Claim C6: for every start attempt of the capture pipeline in which either
conversion channel fails to configure or to start, the attempt is aborted and
reported as an error (an error-level log is emitted), the recorder does not
enter the recording state (the recorder state is unchanged, so `is_recording`
stays false), and no rollback is issued (no stop call appears in the trace);
in particular when the left channel start fails after the right channel
started, the right channel is left running. -/
theorem start_failure_no_rollback (r : audio_recorder_t) (hw : HalOracle)
    (hnot : r.is_recording = false)
    (hfail : (hw.config_left_ok && hw.config_right_ok &&
              hw.start_right_ok && hw.start_left_ok) = false) :
    (audio_recorder_start r hw).recorder = r ∧
    LogLevel.lError ∈ (audio_recorder_start r hw).logs ∧
    (∀ f, HalCall.stopDMA f ∉ (audio_recorder_start r hw).calls) ∧
    (hw.config_left_ok = true → hw.config_right_ok = true → hw.start_right_ok = true →
        HalCall.startDMA 1 ∈ (audio_recorder_start r hw).calls) := by
  obtain ⟨cl, cr, sr, sl⟩ := hw
  cases cl <;> cases cr <;> cases sr <;> cases sl <;>
    simp_all [audio_recorder_start]

/-- Witness for C6: with configuration and the right channel start succeeding
and the left channel start failing, an error is logged, the recorder state is
unchanged, and the already-started right channel (`startDMA 1`) is in the
trace with no stop call. -/
theorem start_failure_no_rollback_witness :
    (audio_recorder_start recIdle hwLeftStartFails).recorder = recIdle ∧
    LogLevel.lError ∈ (audio_recorder_start recIdle hwLeftStartFails).logs ∧
    HalCall.startDMA 1 ∈ (audio_recorder_start recIdle hwLeftStartFails).calls := by
  obtain ⟨h1, h2, _, h4⟩ :=
    start_failure_no_rollback recIdle hwLeftStartFails rfl (by decide)
  exact ⟨h1, h2, h4 rfl rfl rfl⟩

/-- Claim C7: each interrupt callback first sets `buffer_state` to its
corresponding value and then performs exactly one non-blocking enqueue of the
corresponding event onto the bounded event channel; when the channel is full
the event is silently dropped, so the handoff is at most once per event,
never duplicated. -/
theorem interrupt_callback_spec (r : audio_recorder_t) :
    ((audio_recorder_half_complete_callback r).audio_data.buffer_state =
        .AUDIO_BUFFER_HALF_FULL ∧
      (audio_recorder_half_complete_callback r).audio_queue =
        (if r.audio_queue.length < AUDIO_QUEUE_CAPACITY then
          r.audio_queue ++ [.AUDIO_BUFFER_HALF_FULL] else r.audio_queue) ∧
      (audio_recorder_half_complete_callback r).audio_queue.length ≤
        r.audio_queue.length + 1) ∧
    ((audio_recorder_full_complete_callback r).audio_data.buffer_state =
        .AUDIO_BUFFER_FULL ∧
      (audio_recorder_full_complete_callback r).audio_queue =
        (if r.audio_queue.length < AUDIO_QUEUE_CAPACITY then
          r.audio_queue ++ [.AUDIO_BUFFER_FULL] else r.audio_queue) ∧
      (audio_recorder_full_complete_callback r).audio_queue.length ≤
        r.audio_queue.length + 1) := by
  refine ⟨⟨rfl, rfl, ?_⟩, ⟨rfl, rfl, ?_⟩⟩ <;>
    · simp only [audio_recorder_half_complete_callback,
        audio_recorder_full_complete_callback, osMessageQueuePut_nonblocking]
      split <;> simp

/-- Claim C9: calling start while already recording is a no-op (no hardware
call, recorder state unchanged); calling stop while not recording is a no-op
(no hardware stop, recorder state unchanged). -/
theorem start_stop_noop (r1 : audio_recorder_t) (hw : HalOracle) (r2 : audio_recorder_t)
    (h1 : r1.is_recording = true) (h2 : r2.is_recording = false) :
    ((audio_recorder_start r1 hw).recorder = r1 ∧ (audio_recorder_start r1 hw).calls = []) ∧
    ((audio_recorder_stop r2).recorder = r2 ∧ (audio_recorder_stop r2).calls = []) := by
  simp [audio_recorder_start, audio_recorder_stop, h1, h2]

/-- Witness for C9 at concrete recorders: start on a recording recorder and
stop on an idle recorder both leave the state unchanged. -/
theorem start_stop_noop_witness :
    (audio_recorder_start recC1 hwLeftStartFails).recorder = recC1 ∧
    (audio_recorder_stop recIdle).recorder = recIdle := by
  obtain ⟨ha, hb⟩ := start_stop_noop recC1 hwLeftStartFails recIdle rfl rfl
  exact ⟨ha.1, hb.1⟩

/-! ## Theorems about submit, queries, construction and teardown -/

/-- Claim C2: `core_thread_add_task` returns `ERROR_NOT_INITIALIZED` when the
pool is absent; `ERROR_INVALID_ARG` when the function reference is absent;
`ERROR_SHUTDOWN` (with the task never enqueued) when the pool state is not
RUNNING; `ERROR_QUEUE_FULL` when no queue capacity is available; `SUCCESS`
otherwise.  Scenario: with `thread_count = 2`, `queue_size = 1`, both workers
occupied, three LOW-priority submissions with timeout 0 make the third return
`ERROR_QUEUE_FULL`. -/
theorem core_thread_add_task_spec :
    (∀ f a qp ep t, core_thread_add_task none f a qp ep t =
        (.ERROR_NOT_INITIALIZED, none)) ∧
    (∀ pool a qp ep t, core_thread_add_task (some pool) none a qp ep t =
        (.ERROR_INVALID_ARG, some pool)) ∧
    (∀ pool fn a qp ep t, pool.state ≠ .RUNNING →
        core_thread_add_task (some pool) (some fn) a qp ep t =
          (.ERROR_SHUTDOWN, some pool)) ∧
    (∀ pool fn a qp ep t, pool.state = .RUNNING →
        pool.queue_capacity ≤ pool.task_queue.length →
        core_thread_add_task (some pool) (some fn) a qp ep t =
          (.ERROR_QUEUE_FULL, some pool)) ∧
    (∀ pool fn a qp ep t, pool.state = .RUNNING →
        pool.task_queue.length < pool.queue_capacity →
        (core_thread_add_task (some pool) (some fn) a qp ep t).1 = .SUCCESS) ∧
    (c2r1.1 = .SUCCESS ∧ c2r3.1 = .ERROR_QUEUE_FULL) := by
  refine ⟨fun f a qp ep t => rfl, fun pool a qp ep t => rfl, ?_, ?_, ?_, by decide⟩
  · intro pool fn a qp ep t h
    simp [core_thread_add_task, h]
  · intro pool fn a qp ep t h hfull
    simp [core_thread_add_task, h, osMessageQueuePut_try, Nat.not_lt.mpr hfull]
  · intro pool fn a qp ep t h hlt
    simp [core_thread_add_task, h, osMessageQueuePut_try, hlt]

/-- Witness for C2: a concrete submission on a stopped pool returns the
shutdown error with the pool unchanged. -/
theorem core_thread_add_task_spec_witness :
    core_thread_add_task (some poolStopped) (some 1) none .LOW 0 0 =
      (.ERROR_SHUTDOWN, some poolStopped) :=
  core_thread_add_task_spec.2.2.1 poolStopped 1 none .LOW 0 0 (by decide)

/-- Claim C10: every public pool query invoked when no pool instance exists
returns a defined default: both active-count reads return 0, `is_idle`
returns true, `get_state` returns STOPPED, and `wait_and_suspend` returns
without suspending any thread. -/
theorem uninitialized_queries_defaults :
    core_thread_get_active_tasks_count none = 0 ∧
    core_thread_get_active_tasks_count_wo_mutex none = 0 ∧
    core_thread_is_idle none = true ∧
    core_thread_get_state none = .STOPPED ∧
    core_thread_wait_and_suspend_performed none = false :=
  ⟨rfl, rfl, rfl, rfl, rfl⟩

theorem create_worker_threads_mem (o : AllocOracle) :
    ∀ (n i : Nat) (h : Handle), h ∈ (create_worker_threads o i n).1 →
      h.isWorkerThread = true := by
  intro n
  induction n with
  | zero => intro i h hm; simp [create_worker_threads] at hm
  | succ n ih =>
      intro i h hm
      by_cases ht : o.thread_ok i = true
      · simp only [create_worker_threads, ht, if_true, List.mem_cons] at hm
        rcases hm with rfl | hm
        · rfl
        · exact ih (i+1) h hm
      · simp [create_worker_threads, ht] at hm

/-- Claim C4 counterexample: with every allocation succeeding except creation
of the second worker thread, construction fails but worker thread 0 — an
already-created handle — is never released: the error path frees the queue,
mutexes, thread array and pool structure only. -/
theorem create_teardown_leaks_worker_threads :
    (create_threadpool_internal cfgC4 oracleC4).pool = none ∧
    Handle.workerThread 0 ∈ (create_threadpool_internal cfgC4 oracleC4).created ∧
    Handle.workerThread 0 ∉ (create_threadpool_internal cfgC4 oracleC4).released := by
  decide

/-- Claim C4 (amended): if any sub-resource of pool construction fails,
construction reports failure and every already-created handle EXCEPT worker
threads (the queue, the mutexes, the worker-thread array, the pool structure)
is released; already-created worker threads are never among the released
handles. -/
theorem create_failure_cleanup_amended (config : ThreadPoolConfig) (o : AllocOracle)
    (hfail : (create_threadpool_internal config o).pool = none) :
    (∀ h ∈ (create_threadpool_internal config o).created,
        h.isWorkerThread = false → h ∈ (create_threadpool_internal config o).released) ∧
    (∀ h ∈ (create_threadpool_internal config o).released,
        h.isWorkerThread = false) := by
  by_cases hc : config.thread_count = 0 ∨ config.queue_size = 0 ∨ config.stack_size = 0
  · simp [create_threadpool_internal, hc]
  · by_cases hp : o.pool_alloc_ok = false
    · simp [create_threadpool_internal, hc, hp]
    · by_cases hm : o.state_mutex_ok = false ∨ o.active_tasks_mutex_ok = false
      · cases hsm : o.state_mutex_ok <;> cases ham : o.active_tasks_mutex_ok <;>
          simp_all [create_threadpool_internal, error_cleanup, Handle.isWorkerThread]
      · by_cases hq : o.queue_ok = false
        · simp [create_threadpool_internal, hc, hp, hm, hq, error_cleanup,
            Handle.isWorkerThread]
        · by_cases hw : o.worker_array_ok = false
          · simp [create_threadpool_internal, hc, hp, hm, hq, hw, error_cleanup,
              Handle.isWorkerThread]
          · cases htl : (create_worker_threads o 0 config.thread_count).2
            · have hred : (create_threadpool_internal config o).created =
                  [Handle.poolStruct, Handle.stateMutex, Handle.activeTasksMutex,
                    Handle.taskQueue, Handle.workerArray] ++
                  (create_worker_threads o 0 config.thread_count).1 := by
                simp [create_threadpool_internal, hc, hp, hm, hq, hw, htl]
              have hrel : (create_threadpool_internal config o).released =
                  [Handle.taskQueue, Handle.stateMutex, Handle.activeTasksMutex,
                    Handle.workerArray, Handle.poolStruct] := by
                simp [create_threadpool_internal, hc, hp, hm, hq, hw, htl, error_cleanup]
              constructor
              · intro h hmem hwt
                rw [hred] at hmem
                rw [hrel]
                rcases List.mem_append.mp hmem with h5 | h5
                · fin_cases h5 <;> decide
                · exact absurd (create_worker_threads_mem o config.thread_count 0 h h5)
                    (by simp [hwt])
              · intro h hmem
                rw [hrel] at hmem
                fin_cases hmem <;> rfl
            · exfalso
              simp [create_threadpool_internal, hc, hp, hm, hq, hw, htl] at hfail

/-- Witness for the amended C4: applied at the concrete failing construction,
the pool structure handle is among the released handles. -/
theorem create_failure_cleanup_amended_witness :
    Handle.poolStruct ∈ (create_threadpool_internal cfgC4 oracleC4).released := by
  have h := create_failure_cleanup_amended cfgC4 oracleC4 (by decide)
  exact h.1 Handle.poolStruct (by decide) rfl

theorem filterMap_shutdown_length :
    ∀ l : List (Option Nat), (∀ h ∈ l, h.isSome = true) →
      (l.filterMap
        (fun h => if h.isSome then some (shutdown_task, (255:Nat)) else none)).length
        = l.length := by
  intro l
  induction l with
  | nil => intro hall; rfl
  | cons a t ih =>
      intro hall
      have ha : a.isSome = true := hall a (List.mem_cons_self a t)
      simp [List.filterMap_cons, ha,
        ih fun x hx => hall x (List.mem_cons_of_mem a hx)]

theorem filterMap_shutdown_mem (l : List (Option Nat)) (x : Task × Nat)
    (hx : x ∈ l.filterMap
        (fun h => if h.isSome then some (shutdown_task, (255:Nat)) else none)) :
    x = (shutdown_task, 255) := by
  rcases List.mem_filterMap.mp hx with ⟨a, _, hfa⟩
  by_cases ha : a.isSome = true
  · simp only [ha, if_true, Option.some.injEq] at hfa
    exact hfa.symm
  · simp [ha] at hfa

theorem mqInsert_max_front (q : List (Task × Nat)) (t : Task)
    (h : ∀ e ∈ q, e.2 < 255) : mqInsert q t 255 = (t, 255) :: q := by
  cases q with
  | nil => rfl
  | cons e rest =>
      have he : e.2 < 255 := h e (List.mem_cons_self e rest)
      simp [mqInsert, he]

/-- Claim C5 counterexample: with one LOW real task already pending, the
shutdown-tagged task posted at maximum message priority 255 is dequeued
FIRST — the worker exits its loop having executed no real work, and the real
task is still in the queue — refuting that the shutdown task is serviced
only after the real work queued ahead of it drains. -/
theorem shutdown_task_overtakes_queued_work :
    (worker_drain (mqInsert [(realTaskC5, 0)] shutdown_task 255)).1 = [] ∧
    (worker_drain (mqInsert [(realTaskC5, 0)] shutdown_task 255)).2 =
      some [(realTaskC5, 0)] := by
  decide

/-- Claim C5 (amended): during pool teardown exactly one shutdown-tagged task
is posted per (non-null) worker handle, at maximum message priority 255 —
strictly above every submitted task's message priority, so a worker dequeues
it BEFORE lower-priority real work still pending in the queue, not after that
work drains; each worker exits its loop upon dequeuing a shutdown-tagged
task; and afterwards the pool state is STOPPED. -/
theorem shutdown_protocol_amended (pool : ThreadPoolInternal) (wft : Bool)
    (hall : ∀ h ∈ pool.worker_threads, h.isSome = true) :
    (destroy_threadpool_internal pool wft).2.length = pool.worker_threads.length ∧
    (∀ x ∈ (destroy_threadpool_internal pool wft).2,
        x.1.is_shutdown_signal = true ∧ x.2 = 255) ∧
    (∀ p, convert_priority p < 255) ∧
    (∀ t pr q, t.is_shutdown_signal = true →
        worker_drain ((t, pr) :: q) = ([], some q)) ∧
    (∀ q t, (∀ e ∈ q, e.2 < 255) → mqInsert q t 255 = (t, 255) :: q) ∧
    (destroy_threadpool_internal pool wft).1.state = .STOPPED := by
  refine ⟨filterMap_shutdown_length pool.worker_threads hall, ?_, ?_, ?_, ?_, rfl⟩
  · intro x hx
    have hx2 := filterMap_shutdown_mem pool.worker_threads x hx
    rw [hx2]
    exact ⟨rfl, rfl⟩
  · intro p; cases p <;> decide
  · intro t pr q ht; simp [worker_drain, ht]
  · intro q t h; exact mqInsert_max_front q t h

/-- Witness for the amended C5 at a concrete pool with two live workers:
exactly two shutdown puts are issued and the final state is STOPPED. -/
theorem shutdown_protocol_amended_witness :
    (destroy_threadpool_internal poolC2 true).2.length =
      poolC2.worker_threads.length ∧
    (destroy_threadpool_internal poolC2 true).1.state = .STOPPED := by
  have h := shutdown_protocol_amended poolC2 true (by decide)
  exact ⟨h.1, h.2.2.2.2.2⟩

/-! ## Theorems about the worker interleaving -/

theorem countRunning_replicate_false (n : Nat) :
    countRunning (List.replicate n false) = 0 := by
  induction n with
  | zero => rfl
  | succ n ih => simp [List.replicate, countRunning, ih]

theorem countRunning_le_length (l : List Bool) : countRunning l ≤ l.length := by
  induction l with
  | nil => simp [countRunning]
  | cons b t ih => cases b <;> simp [countRunning] <;> omega

theorem countRunning_set_true (l : List Bool) :
    ∀ w : Nat, l.getD w true = false →
      countRunning (l.set w true) = countRunning l + 1 := by
  induction l with
  | nil => intro w h; simp [List.getD] at h
  | cons b t ih =>
      intro w h
      cases w with
      | zero =>
          simp only [List.getD_cons_zero] at h
          subst h
          simp [List.set, countRunning]
          omega
      | succ w =>
          simp only [List.getD_cons_succ] at h
          cases b <;> simp [List.set, countRunning, ih w h] <;> omega

theorem countRunning_set_false (l : List Bool) :
    ∀ w : Nat, l.getD w false = true →
      countRunning l = countRunning (l.set w false) + 1 := by
  induction l with
  | nil => intro w h; simp [List.getD] at h
  | cons b t ih =>
      intro w h
      cases w with
      | zero =>
          simp only [List.getD_cons_zero] at h
          subst h
          simp [List.set, countRunning]
          omega
      | succ w =>
          simp only [List.getD_cons_succ] at h
          cases b <;> simp [List.set, countRunning, ih w h] <;> omega

theorem countRunning_pos (l : List Bool) :
    ∀ w : Nat, l.getD w false = true → 1 ≤ countRunning l := by
  induction l with
  | nil => intro w h; simp [List.getD] at h
  | cons b t ih =>
      intro w h
      cases w with
      | zero =>
          simp only [List.getD_cons_zero] at h
          subst h
          simp [countRunning]
      | succ w =>
          simp only [List.getD_cons_succ] at h
          have := ih w h
          cases b <;> simp [countRunning] <;> omega

theorem countRunning_two (l : List Bool) :
    ∀ w w1 : Nat, w ≠ w1 → l.getD w false = true → l.getD w1 false = true →
      2 ≤ countRunning l := by
  induction l with
  | nil => intro w w1 hne h h1; simp [List.getD] at h
  | cons b t ih =>
      intro w w1 hne h h1
      cases w with
      | zero =>
          cases w1 with
          | zero => exact absurd rfl hne
          | succ w1 =>
              simp only [List.getD_cons_zero] at h
              simp only [List.getD_cons_succ] at h1
              have := countRunning_pos t w1 h1
              subst h
              simp [countRunning]
              omega
      | succ w =>
          cases w1 with
          | zero =>
              simp only [List.getD_cons_succ] at h
              simp only [List.getD_cons_zero] at h1
              have := countRunning_pos t w h
              subst h1
              simp [countRunning]
              omega
          | succ w1 =>
              simp only [List.getD_cons_succ] at h h1
              have := ih w w1 (by omega) h h1
              cases b <;> simp [countRunning] <;> omega

theorem poolSim_invariant (n : Nat) (lp : Bool) (s : PoolSim)
    (h : poolReachable n lp s) :
    s.workers.length = n ∧ s.active_tasks = countRunning s.workers := by
  induction h with
  | init =>
      exact ⟨List.length_replicate n false,
        by simp [poolSimInit, countRunning_replicate_false]⟩
  | step s t hs hst ih =>
      obtain ⟨ihl, ihc⟩ := ih
      cases hst with
      | start_task w t2 heq =>
          by_cases hcond : s.workers.getD w true = false
          · unfold worker_begin_task at heq
            rw [if_pos hcond] at heq
            injection heq with heq
            subst heq
            refine ⟨?_, ?_⟩
            · simp [List.length_set, ihl]
            · simp [countRunning_set_true s.workers w hcond, ihc]
          · unfold worker_begin_task at heq
            rw [if_neg hcond] at heq
            cases heq
      | finish_task w t2 resumed heq =>
          by_cases hcond : s.workers.getD w false = true
          · unfold worker_finish_task at heq
            rw [if_pos hcond] at heq
            simp only [Option.some.injEq, Prod.mk.injEq] at heq
            obtain ⟨ht, hr⟩ := heq
            subst ht
            have hdec := countRunning_set_false s.workers w hcond
            refine ⟨?_, ?_⟩
            · simp [List.length_set, ihl]
            · simp only
              omega
          · unfold worker_finish_task at heq
            rw [if_neg hcond] at heq
            cases heq
      | idle_hook =>
          refine ⟨?_, ?_⟩ <;>
            · unfold core_thread_wait_and_suspend_sim
              split_ifs <;> simp [ihl, ihc]
      | request_shutdown => exact ⟨ihl, ihc⟩

/-- Claim C3: in every reachable state of an initialized pool the active-task
counter equals the number of workers currently inside a task body — each
worker increments it immediately before running the body and decrements it
immediately after — hence `0 ≤ active_tasks ≤ thread_count`: no interleaving
of worker steps drives the counter negative or above the worker count. -/
theorem active_tasks_invariant (n : Nat) (lp : Bool) (s : PoolSim)
    (h : poolReachable n lp s) :
    s.active_tasks = countRunning s.workers ∧ s.active_tasks ≤ n := by
  obtain ⟨hl, hc⟩ := poolSim_invariant n lp s h
  refine ⟨hc, ?_⟩
  rw [hc, ← hl]
  exact countRunning_le_length s.workers

/-- Witness for C3 at a concrete reachable state: one worker running out of
one, counter 1 ≤ 1. -/
theorem active_tasks_invariant_witness :
    simActive1.active_tasks = countRunning simActive1.workers ∧
    simActive1.active_tasks ≤ 1 := by
  have hreach : poolReachable 1 true simActive1 :=
    poolReachable.step _ _ poolReachable.init
      (PoolStep.start_task (poolSimInit 1 true) 0 simActive1 (by decide))
  exact active_tasks_invariant 1 true simActive1 hreach

/-- Claim C8: with low-power mode enabled, `wait_and_suspend` called while
`active_tasks > 0` suspends the calling (main) thread; a worker's finish step
invokes the resume exactly when its own decrement brings `active_tasks` to
zero while the pool state is still RUNNING; and for that transition the
finishing worker is the only running worker — no other worker can perform a
resume for the same transition to zero. -/
theorem low_power_resume_spec (n : Nat) (s : PoolSim) (w : Nat) (t : PoolSim)
    (resumed : Bool) (hreach : poolReachable n true s)
    (hlp : s.low_power_mode = true) (hmain : s.main_thread.isSome = true)
    (hfin : worker_finish_task s w = some (t, resumed)) :
    (0 < s.active_tasks →
        (core_thread_wait_and_suspend_sim s).main_suspended = true) ∧
    (resumed = true ↔ (s.active_tasks = 1 ∧ s.state = .RUNNING)) ∧
    (resumed = true → t.active_tasks = 0 ∧ t.main_suspended = false ∧
        ∀ w1, w1 ≠ w → s.workers.getD w1 false = false) := by
  by_cases hcond : s.workers.getD w false = true
  case neg =>
    unfold worker_finish_task at hfin
    rw [if_neg hcond] at hfin
    cases hfin
  obtain ⟨hl, hc⟩ := poolSim_invariant n true s hreach
  have hpos : 1 ≤ s.active_tasks := hc ▸ countRunning_pos s.workers w hcond
  unfold worker_finish_task at hfin
  rw [if_pos hcond] at hfin
  simp only [Option.some.injEq, Prod.mk.injEq] at hfin
  obtain ⟨ht, hr⟩ := hfin
  have hiff : resumed = true ↔ (s.active_tasks = 1 ∧ s.state = .RUNNING) := by
    rw [← hr]
    simp only [decide_eq_true_eq, hlp, hmain]
    constructor
    · rintro ⟨-, h1, h2, -⟩
      exact ⟨by omega, h2⟩
    · rintro ⟨h1, h2⟩
      exact ⟨trivial, by omega, h2, trivial⟩
  refine ⟨?_, hiff, ?_⟩
  · intro hact
    unfold core_thread_wait_and_suspend_sim
    rw [hlp]
    simp [hact, hmain]
  · intro hres
    obtain ⟨h1, h2⟩ := hiff.mp hres
    have hprop : s.low_power_mode = true ∧ s.active_tasks - 1 = 0 ∧
        s.state = .RUNNING ∧ s.main_thread.isSome = true :=
      ⟨hlp, by omega, h2, hmain⟩
    subst ht
    refine ⟨by simp; omega, by simp [hprop], ?_⟩
    intro w1 hne
    cases hgd : s.workers.getD w1 false
    · rfl
    · exfalso
      have h2le := countRunning_two s.workers w w1 (Ne.symm hne) hcond hgd
      omega

/-- Witness for C8: in the concrete reachable one-worker state with one
active task, `wait_and_suspend` suspends the main thread, and the finish step
of the only worker reports the resume (it is the transition to zero while
RUNNING). -/
theorem low_power_resume_spec_witness :
    (core_thread_wait_and_suspend_sim simActive1).main_suspended = true ∧
    (true = true ↔ (simActive1.active_tasks = 1 ∧ simActive1.state = .RUNNING)) := by
  have hreach : poolReachable 1 true simActive1 :=
    poolReachable.step _ _ poolReachable.init
      (PoolStep.start_task (poolSimInit 1 true) 0 simActive1 (by decide))
  have h := low_power_resume_spec 1 simActive1 0 simDone1 true hreach rfl rfl (by decide)
  exact ⟨h.1 (by decide), h.2.1⟩

end STM32Audio
